import Mathlib

/-!
Shallow embedding of `custom_components/heatapp/heatapp/heatapp.py`:
a UDP client for a heatapp heating hub (`HeatappHub`) and its radiator
zones (`HeatappRadiator`).

Modelling conventions:
* The datagram transport is a function `Transport : String → Option String`;
  `none` models a socket timeout, `some data` the (already decoded) reply
  datagram.  The socket, host and port play no further role.
* Python exceptions are modelled with `Except PyErr`: `IndexError` from
  list subscripts, `ValueError` from `int(...)`, `list.index(...)` and
  `datetime.datetime(...)`, and Python's `ConnectionError` raised by
  `HeatappHub.__init__`.
* Operations that issue several commands additionally return the list of
  command strings they sent, in order (the I/O trace of `send_command`
  calls), so that claims about which commands are sent can be stated.
* Python `float` arithmetic in `get_energy_usage` is modelled with `ℚ`
  (the quantities in the claims are exact in both).
-/

namespace Heatapp

/-- The Python exceptions the module can raise. -/
inductive PyErr where
  | indexError
  | valueError
  | connectionError
deriving DecidableEq, Repr

/-- The datagram transport: maps an outbound command string to the reply
datagram (`none` models `socket.timeout`). -/
def Transport : Type := String → Option String

/-- Python `s.split(sep)` for a one-character separator, on char lists:
always returns at least one (possibly empty) piece. -/
def splitChar (c : Char) : List Char → List (List Char)
  | [] => [[]]
  | x :: xs =>
    let r := splitChar c xs
    if x == c then [] :: r
    else
      match r with
      | [] => [[x]]
      | y :: ys => (x :: y) :: ys

/-- Python `s.split(",")`. -/
def pySplit (s : String) : List String :=
  (splitChar ',' s.data).map (fun l => ⟨l⟩)

/-- Python `s.rstrip(c)` for a one-character argument: remove every
trailing occurrence of `c`. -/
def rstrip (s : String) (c : Char) : String :=
  ⟨(s.data.reverse.dropWhile (fun x => x == c)).reverse⟩

/-- `HeatappHub.send_command`: send one command, wait for one reply;
`data.decode().rstrip("\x00").rstrip("\x19")` on success, the literal
sentinel `"TIMEOUT"` on `socket.timeout`. -/
def send_command (t : Transport) (command : String) : String :=
  match t command with
  | some data => rstrip (rstrip data '\x00') '\x19'
  | none => "TIMEOUT"

/-- Digits of a numeral to the `Nat` it denotes. -/
def digitsToNat (cs : List Char) : Nat :=
  cs.foldl (fun a c => 10 * a + (c.toNat - 48)) 0

/-- Python `int(s)` after whitespace stripping: an optional sign followed
by a nonempty run of digits; anything else raises `ValueError`. -/
def pyIntCore : List Char → Except PyErr Int
  | '-' :: rest =>
    if rest ≠ [] ∧ rest.all Char.isDigit then .ok (-(digitsToNat rest : Int))
    else .error .valueError
  | '+' :: rest =>
    if rest ≠ [] ∧ rest.all Char.isDigit then .ok (digitsToNat rest : Int)
    else .error .valueError
  | cs =>
    if cs ≠ [] ∧ cs.all Char.isDigit then .ok (digitsToNat cs : Int)
    else .error .valueError

/-- Leading and trailing whitespace removal, as `int(...)` applies before
parsing. -/
def stripWs (cs : List Char) : List Char :=
  ((cs.dropWhile Char.isWhitespace).reverse.dropWhile Char.isWhitespace).reverse

/-- Python `int(s)`. -/
def pyInt (s : String) : Except PyErr Int :=
  pyIntCore (stripWs s.data)

/-- Python `xs[i]` for a nonnegative index: `IndexError` when out of range. -/
def pyGet {α : Type} (xs : List α) (i : Nat) : Except PyErr α :=
  match xs.get? i with
  | some x => .ok x
  | none => .error .indexError

/-- Python `xs.index(x)`: first position of `x`, `ValueError` when absent. -/
def pyIndex (xs : List Int) (x : Int) : Except PyErr Nat :=
  match xs.findIdx? (fun y => y == x) with
  | some i => .ok i
  | none => .error .valueError

/-- Python `[int(x) for x in xs]`: left to right, first failure raises. -/
def mapPyInt : List String → Except PyErr (List Int)
  | [] => .ok []
  | x :: xs => do
    let n ← pyInt x
    let ns ← mapPyInt xs
    .ok (n :: ns)

/-- The state a fully constructed `HeatappHub` holds: its socket (the
transport) and the attributes set by `__init__`. -/
structure Hub where
  t : Transport
  firmware : String
  device_id : String
  idu : String
  radiator_ids : List Int
  radiators_per_zone : List Int

/-- `HeatappHub.get_fw`: `OPF/`; on `"OPOK"` return
`{firmware: r[1], device_id: r[2] + "/" + r[3], idu: r[3]}`, else `None`
(the Python function falls off the end). -/
def get_fw (t : Transport) : Except PyErr (Option (String × String × String)) :=
  let r := pySplit (send_command t "OPF/")
  if r.headI = "OPOK" then do
    let r1 ← pyGet r 1
    let r2 ← pyGet r 2
    let r3 ← pyGet r 3
    .ok (some (r1, r2 ++ "/" ++ r3, r3))
  else .ok none

/-- `HeatappHub.__get_radiator_ids`: `OPS2/`; on `"OPOK"` parse every
field from index 2 on as an integer, else return `[]`. -/
def get_radiator_ids (t : Transport) : Except PyErr (List Int) :=
  let response := pySplit (send_command t "OPS2/")
  if response.headI = "OPOK" then mapPyInt (response.drop 2)
  else .ok []

/-- `HeatappHub.__get_radiators_per_zone`: `OPS3/`; same shape as
`__get_radiator_ids`. -/
def get_radiators_per_zone (t : Transport) : Except PyErr (List Int) :=
  let response := pySplit (send_command t "OPS3/")
  if response.headI = "OPOK" then mapPyInt (response.drop 2)
  else .ok []

/-- `HeatappHub.__init__` after the socket is created: `get_fw`, raise
`ConnectionError` when it returned `None`, then the two topology queries. -/
def hubInit (t : Transport) : Except PyErr Hub := do
  let fw ← get_fw t
  match fw with
  | none => .error .connectionError
  | some (firmware, device_id, idu) =>
    let ids ← get_radiator_ids t
    let per ← get_radiators_per_zone t
    .ok ⟨t, firmware, device_id, idu, ids, per⟩

/-- `HeatappHub.ready`: `OPS1/`; true iff the status token is `"OPOK"`. -/
def ready (t : Transport) : Bool :=
  let response := pySplit (send_command t "OPS1/")
  if response.headI = "OPOK" then true else false

/-- `HeatappHub.get_nw`: `OPS38/`; on `"OPOK"` build the three
dot-joined address strings from fields 2..13, else `None`. -/
def get_nw (t : Transport) : Except PyErr (Option (String × String × String)) :=
  let r := pySplit (send_command t "OPS38/")
  if r.headI = "OPOK" then do
    let a0 ← pyGet r 2
    let a1 ← pyGet r 3
    let a2 ← pyGet r 4
    let a3 ← pyGet r 5
    let g0 ← pyGet r 6
    let g1 ← pyGet r 7
    let g2 ← pyGet r 8
    let g3 ← pyGet r 9
    let s0 ← pyGet r 10
    let s1 ← pyGet r 11
    let s2 ← pyGet r 12
    let s3 ← pyGet r 13
    .ok (some (a0 ++ "." ++ a1 ++ "." ++ a2 ++ "." ++ a3,
               g0 ++ "." ++ g1 ++ "." ++ g2 ++ "." ++ g3,
               s0 ++ "." ++ s1 ++ "." ++ s2 ++ "." ++ s3))
  else .ok none

/-- The value `datetime.datetime(year, month, day, hour, minute, second)`
carries. -/
structure PyDatetime where
  year : Int
  month : Int
  day : Int
  hour : Int
  minute : Int
  second : Int
deriving DecidableEq, Repr

/-- Gregorian leap year, as `datetime` uses it. -/
def isLeap (y : Int) : Bool :=
  y % 4 == 0 && (y % 100 != 0 || y % 400 == 0)

/-- Days in a month, as `datetime` validates the `day` argument. -/
def daysInMonth (y mo : Int) : Int :=
  if mo = 2 then (if isLeap y then 29 else 28)
  else if mo = 4 ∨ mo = 6 ∨ mo = 9 ∨ mo = 11 then 30
  else 31

/-- `datetime.datetime(y, mo, d, h, mi, s)`: range-checks every argument
and raises `ValueError` when one is out of range. -/
def mkDatetime (y mo d h mi s : Int) : Except PyErr PyDatetime :=
  if 1 ≤ y ∧ y ≤ 9999 ∧ 1 ≤ mo ∧ mo ≤ 12 ∧ 1 ≤ d ∧ d ≤ daysInMonth y mo ∧
     0 ≤ h ∧ h ≤ 23 ∧ 0 ≤ mi ∧ mi ≤ 59 ∧ 0 ≤ s ∧ s ≤ 59 then
    .ok ⟨y, mo, d, h, mi, s⟩
  else .error .valueError

/-- `HeatappHub.get_time`: `OPH/`; on `"OPOK"` parse every remaining
field as an integer and build
`datetime.datetime(2000 + d[6], d[5], d[4], d[0], d[1], d[2])`, else `None`. -/
def get_time (t : Transport) : Except PyErr (Option PyDatetime) :=
  let r := pySplit (send_command t "OPH/")
  if r.headI = "OPOK" then do
    let d ← mapPyInt (r.drop 1)
    let d6 ← pyGet d 6
    let d5 ← pyGet d 5
    let d4 ← pyGet d 4
    let d0 ← pyGet d 0
    let d1 ← pyGet d 1
    let d2 ← pyGet d 2
    let dt ← mkDatetime (2000 + d6) d5 d4 d0 d1 d2
    .ok (some dt)
  else .ok none

/-- The attributes a fully constructed `HeatappRadiator` holds (besides
its back-reference to the hub). -/
structure Radiator where
  rad_id : Int
  firmware : Option String
  serial : Option String
  power : Int
deriving Repr

/-- The wire string `f"R#{rad_id}#1#0#0*?T/"`. -/
def rtCmd (rad_id : Int) : String :=
  "R#" ++ toString rad_id ++ "#1#0#0*?T/"

/-- The wire string `f"R#{rad_id}#{i}#0#0*?UD/"`. -/
def rudCmd (rad_id : Int) (i : Nat) : String :=
  "R#" ++ toString rad_id ++ "#" ++ toString i ++ "#0#0*?UD/"

/-- The wire string `f"R#{rad_id}#1#0#0*?F/"`. -/
def rfCmd (rad_id : Int) : String :=
  "R#" ++ toString rad_id ++ "#1#0#0*?F/"

/-- The wire string `f"D#{rad_id}#{i}#0#0*T{target}/"`. -/
def dCmd (rad_id : Int) (i : Nat) (target : Int) : String :=
  "D#" ++ toString rad_id ++ "#" ++ toString i ++ "#0#0*T" ++ toString target ++ "/"

/-- Python `range(1, rad_count + 1)` as a list (empty when
`rad_count <= 0`). -/
def range1 (rad_count : Int) : List Nat :=
  (List.range rad_count.toNat).map (fun k => k + 1)

/-- The `rad_count` lookup shared by `set_temperature`,
`get_energy_usage` and `__get_power`:
`self._hub.radiators_per_zone[self._hub.radiator_ids.index(self.rad_id)]`. -/
def radCount (hub : Hub) (rad_id : Int) : Except PyErr Int := do
  let idx ← pyIndex hub.radiator_ids rad_id
  pyGet hub.radiators_per_zone idx

/-- `HeatappRadiator.get_temperature`: one `?T` read against unit 1; on
`"OK"` return `{current: int(r[1]), target: int(r[2])}`, else `None`. -/
def get_temperature (hub : Hub) (rad_id : Int) : Except PyErr (Option (Int × Int)) :=
  let r := pySplit (send_command hub.t (rtCmd rad_id))
  if r.headI = "OK" then do
    let c1 ← pyGet r 1
    let current ← pyInt c1
    let c2 ← pyGet r 2
    let target ← pyInt c2
    .ok (some (current, target))
  else .ok none

/-- The loop of `HeatappRadiator.set_temperature` over the unit indices
still to visit, threading the `okay` flag; also returns the commands sent. -/
def set_temperature_loop (t : Transport) (rad_id target : Int) :
    List Nat → Bool → List String × Bool
  | [], okay => ([], okay)
  | i :: rest, _ =>
    let command := dCmd rad_id i target
    let r := pySplit (send_command t command)
    let okay := if r.headI = "OK" then true else false
    let (cs, res) := set_temperature_loop t rad_id target rest okay
    (command :: cs, res)

/-- `HeatappRadiator.set_temperature`: look up `rad_count`, then send one
`D#...*T{target}/` per unit, the `okay` flag being overwritten each
iteration; returns the commands sent and the final flag. -/
def set_temperature (hub : Hub) (rad_id target : Int) :
    List String × Except PyErr Bool :=
  match radCount hub rad_id with
  | .error e => ([], .error e)
  | .ok rad_count =>
    let (cs, okay) := set_temperature_loop hub.t rad_id target (range1 rad_count) false
    (cs, .ok okay)

/-- The loop of `HeatappRadiator.get_energy_usage`, threading `total` and
the overwritten `okay` flag; also returns the commands sent. -/
def get_energy_usage_loop (t : Transport) (rad_id : Int) :
    List Nat → ℚ → Bool → List String × Except PyErr (ℚ × Bool)
  | [], total, okay => ([], .ok (total, okay))
  | i :: rest, total, _ =>
    let command := rudCmd rad_id i
    let r := pySplit (send_command t command)
    if r.headI = "OK" then
      match (do
        let c1 ← pyGet r 1
        let n1 ← pyInt c1
        let c2 ← pyGet r 2
        let n2 ← pyInt c2
        pure ((n1 : ℚ) / 10000, n2) : Except PyErr (ℚ × Int)) with
      | .error e => ([command], .error e)
      | .ok (multiplier, n2) =>
        let (cs, res) :=
          get_energy_usage_loop t rad_id rest (total + (n2 : ℚ) * multiplier) true
        (command :: cs, res)
    else
      let (cs, res) := get_energy_usage_loop t rad_id rest total false
      (command :: cs, res)

/-- `HeatappRadiator.get_energy_usage`: look up `rad_count`, run the
per-unit `?UD` loop from `total = 0.0, okay = False`, return the total
when the final flag is true and `None` otherwise. -/
def get_energy_usage (hub : Hub) (rad_id : Int) :
    List String × Except PyErr (Option ℚ) :=
  match radCount hub rad_id with
  | .error e => ([], .error e)
  | .ok rad_count =>
    match get_energy_usage_loop hub.t rad_id (range1 rad_count) 0 false with
    | (cs, .error e) => (cs, .error e)
    | (cs, .ok (total, okay)) => (cs, .ok (if okay then some total else none))

/-- The loop of `HeatappRadiator.__get_power`, threading `total`; failed
units contribute nothing; also returns the commands sent. -/
def get_power_loop (t : Transport) (rad_id : Int) :
    List Nat → Int → List String × Except PyErr Int
  | [], total => ([], .ok total)
  | i :: rest, total =>
    let command := rudCmd rad_id i
    let r := pySplit (send_command t command)
    if r.headI = "OK" then
      match (do
        let c1 ← pyGet r 1
        pyInt c1 : Except PyErr Int) with
      | .error e => ([command], .error e)
      | .ok n1 =>
        let (cs, res) := get_power_loop t rad_id rest (total + n1)
        (command :: cs, res)
    else
      let (cs, res) := get_power_loop t rad_id rest total
      (command :: cs, res)

/-- `HeatappRadiator.__get_power`: look up `rad_count`, sum `int(r[1])`
over the units whose `?UD` reply has status `"OK"`. -/
def get_power (hub : Hub) (rad_id : Int) : List String × Except PyErr Int :=
  match radCount hub rad_id with
  | .error e => ([], .error e)
  | .ok rad_count => get_power_loop hub.t rad_id (range1 rad_count) 0

/-- `HeatappRadiator.__get_fw`: one `?F` read against unit 1; on `"OK"`
return `{firmware: r[1], serial: r[2]}`, else both fields `None`. -/
def get_rad_fw (t : Transport) (rad_id : Int) :
    Except PyErr (Option String × Option String) :=
  let r := pySplit (send_command t (rfCmd rad_id))
  if r.headI = "OK" then do
    let f ← pyGet r 1
    let s ← pyGet r 2
    .ok (some f, some s)
  else .ok (none, none)

/-- `HeatappRadiator.__init__`: `__get_fw` first (which always sends its
`?F` command), then `__get_power` (whose first step is the `rad_id`
lookup); returns the commands sent and the constructed radiator or the
propagated exception. -/
def radiatorInit (hub : Hub) (rad_id : Int) :
    List String × Except PyErr Radiator :=
  match get_rad_fw hub.t rad_id with
  | .error e => ([rfCmd rad_id], .error e)
  | .ok (firmware, serial) =>
    match get_power hub rad_id with
    | (cs, .error e) => (rfCmd rad_id :: cs, .error e)
    | (cs, .ok power) => (rfCmd rad_id :: cs, .ok ⟨rad_id, firmware, serial, power⟩)

/-- The per-unit success flag `set_temperature` and `get_energy_usage`
compute from a `?UD`/`T`-write reply (exactly the `r[0] == "OK"` test). -/
def unit_ok (t : Transport) (command : String) : Bool :=
  if (pySplit (send_command t command)).headI = "OK" then true else false

/-! ### Example transports and hubs used as concrete witnesses -/

/-- A zone of two units where unit 1 acknowledges the write and unit 2
fails it. -/
def okThenErrHub : Hub :=
  ⟨fun c => if c = "D#7#1#0#0*T21/" then some "OK"
    else if c = "D#7#2#0#0*T21/" then some "ERR" else none,
   "fw", "site/idu", "idu", [7], [2]⟩

/-- A zone of two units where unit 1 fails the write and unit 2
acknowledges it. -/
def errThenOkHub : Hub :=
  ⟨fun c => if c = "D#7#1#0#0*T21/" then some "ERR"
    else if c = "D#7#2#0#0*T21/" then some "OK" else none,
   "fw", "site/idu", "idu", [7], [2]⟩

/-- A zone of two units whose `?UD` replies are `"OK,5000,100"` and
`"OK,5000,200"`. -/
def energyHub : Hub :=
  ⟨fun c => if c = "R#7#1#0#0*?UD/" then some "OK,5000,100"
    else if c = "R#7#2#0#0*?UD/" then some "OK,5000,200" else none,
   "fw", "site/idu", "idu", [7], [2]⟩

/-- A transport whose `OPF/` handshake succeeds, whose `OPS2/` reply
carries two radiator ids, and whose `OPS3/` query times out. -/
def mismatchT : Transport := fun c =>
  if c = "OPF/" then some "OPOK,fw,site,idu"
  else if c = "OPS2/" then some "OPOK,0,5,6"
  else none

/-- A transport whose `OPF/` handshake succeeds and whose two topology
replies both succeed with two fields each after index 2. -/
def twoZoneT : Transport := fun c =>
  if c = "OPF/" then some "OPOK,fw,site,idu"
  else if c = "OPS2/" then some "OPOK,0,5,6"
  else if c = "OPS3/" then some "OPOK,0,1,2"
  else none

/-- A hub that answers every unit-level command with `"ERR"` and knows no
radiator ids. -/
def noZoneHub : Hub := ⟨fun _ => some "ERR", "fw", "site/idu", "idu", [], []⟩

/-- A transport answering `OPH/` with fields `1,...,7` after the status
token. -/
def timeT : Transport := fun c =>
  if c = "OPH/" then some "OPOK,1,2,3,4,5,6,7" else none

/-- A transport whose reply datagram ends in a NUL byte followed by an
`0x19` byte (an interleaved padding run). -/
def interleavedPadT : Transport := fun _ => some "OPOK\x00\x19"

/-- A transport whose reply datagram ends in `0x19` bytes followed by NUL
bytes. -/
def orderedPadT : Transport := fun _ => some "OPOK\x19\x19\x00\x00"

/-- A transport that never replies. -/
def silentT : Transport := fun _ => none

/-- A hub over `silentT` with one two-unit zone. -/
def silentHub : Hub := ⟨silentT, "fw", "site/idu", "idu", [7], [2]⟩

/-- A transport whose `OPF/` reply is the success token alone, with no
fields after it. -/
def bareOpokT : Transport := fun c =>
  if c = "OPF/" then some "OPOK" else none

/-- A transport whose `OPS2/` reply carries a non-integer field after the
success token, and whose `OPF/` reply fails the status check. -/
def badFieldT : Transport := fun c =>
  if c = "OPS2/" then some "OPOK,0,abc"
  else if c = "OPF/" then some "ERR,fw,site,idu"
  else none

/-- A transport whose `OPF/` handshake succeeds and whose topology
queries time out. -/
def opfOnlyT : Transport := fun c =>
  if c = "OPF/" then some "OPOK,fw,site,idu" else none

/-! ### Helper lemmas about the embedding -/

theorem ok_bind {α β : Type} (a : α) (f : α → Except PyErr β) :
    (Except.ok a >>= f) = f a := rfl

theorem error_bind {α β : Type} (e : PyErr) (f : α → Except PyErr β) :
    ((Except.error e : Except PyErr α) >>= f) = .error e := rfl

/-- `mapPyInt` preserves length when it succeeds. -/
theorem mapPyInt_length (xs : List String) (ys : List Int)
    (h : mapPyInt xs = .ok ys) : ys.length = xs.length := by
  induction xs generalizing ys with
  | nil =>
    simp only [mapPyInt] at h
    cases h
    rfl
  | cons x rest ih =>
    simp only [mapPyInt] at h
    cases hx : pyInt x with
    | error e => rw [hx, error_bind] at h; cases h
    | ok n =>
      rw [hx, ok_bind] at h
      cases hr : mapPyInt rest with
      | error e => rw [hr, error_bind] at h; cases h
      | ok ns =>
        rw [hr, ok_bind] at h
        cases h
        simp [ih ns hr]

/-- `pyInt` only ever raises `ValueError`. -/
theorem pyInt_error (s : String) (e : PyErr) (h : pyInt s = .error e) :
    e = .valueError := by
  unfold pyInt pyIntCore at h
  split at h <;> split at h <;> simp_all

/-- `pyGet` only ever raises `IndexError`. -/
theorem pyGet_error {α : Type} (xs : List α) (i : Nat) (e : PyErr)
    (h : pyGet xs i = .error e) : e = .indexError := by
  unfold pyGet at h
  split at h <;> simp_all

/-- `mapPyInt` only ever raises `ValueError`. -/
theorem mapPyInt_error (xs : List String) (e : PyErr)
    (h : mapPyInt xs = .error e) : e = .valueError := by
  induction xs with
  | nil => simp only [mapPyInt] at h; cases h
  | cons x rest ih =>
    simp only [mapPyInt] at h
    cases hx : pyInt x with
    | error e2 =>
      rw [hx, error_bind] at h
      cases h
      exact pyInt_error x e hx
    | ok n =>
      rw [hx, ok_bind] at h
      cases hr : mapPyInt rest with
      | error e2 =>
        rw [hr, error_bind] at h
        cases h
        exact ih hr
      | ok ns => rw [hr, ok_bind] at h; cases h

/-- When `1 ≤ n`, `range(1, n + 1)` is the earlier indices followed by the
final index `n`. -/
theorem range1_concat (n : Int) (h1 : 1 ≤ n) :
    range1 n = (List.range (n.toNat - 1)).map (fun k => k + 1) ++ [n.toNat] := by
  have hn : n.toNat = (n.toNat - 1) + 1 := by omega
  rw [range1, hn, List.range_succ, List.map_append]
  simp only [List.map_cons, List.map_nil]
  rw [← hn]

/-- The write loop sends exactly one `D#...` command per unit index it
visits. -/
theorem set_temperature_loop_trace (t : Transport) (rad_id target : Int)
    (is : List Nat) (okay : Bool) :
    (set_temperature_loop t rad_id target is okay).1
      = is.map (fun i => dCmd rad_id i target) := by
  induction is generalizing okay with
  | nil => rfl
  | cons i rest ih =>
    simp only [set_temperature_loop, List.map_cons]
    rw [← ih (if (pySplit (send_command t (dCmd rad_id i target))).headI = "OK"
        then true else false)]

/-- The write loop's flag after visiting a nonempty block of unit indices
is the success of the reply to the last index, whatever flag it started
from. -/
theorem set_temperature_loop_last (t : Transport) (rad_id target : Int)
    (is : List Nat) (i : Nat) (okay : Bool) :
    (set_temperature_loop t rad_id target (is ++ [i]) okay).2
      = unit_ok t (dCmd rad_id i target) := by
  induction is generalizing okay with
  | nil => rfl
  | cons b bs ih =>
    simp only [List.cons_append, set_temperature_loop]
    exact ih _

/-- C1: for every zone with unit count `n ≥ 1`,
`HeatappRadiator.set_temperature(target)` sends one
`D#{rad_id}#{i}#0#0*T{target}/` command per unit `i = 1..n`, and returns
true if and only if the reply to the last unit's command (unit `n`) has
status token `"OK"`; replies from earlier units do not affect the
result. -/
theorem set_temperature_last_unit_only (hub : Hub) (rad_id target n : Int)
    (hcount : radCount hub rad_id = .ok n) (h1 : 1 ≤ n) :
    (set_temperature hub rad_id target).1
        = (range1 n).map (fun i => dCmd rad_id i target) ∧
    ((set_temperature hub rad_id target).2 = .ok true ↔
      (pySplit (send_command hub.t (dCmd rad_id n.toNat target))).headI = "OK") := by
  have hs : set_temperature hub rad_id target
      = ((set_temperature_loop hub.t rad_id target (range1 n) false).1,
         .ok (set_temperature_loop hub.t rad_id target (range1 n) false).2) := by
    rw [set_temperature, hcount]
  constructor
  · rw [hs]
    exact set_temperature_loop_trace hub.t rad_id target (range1 n) false
  · rw [hs]
    have hlast := set_temperature_loop_last hub.t rad_id target
      ((List.range (n.toNat - 1)).map (fun k => k + 1)) n.toNat false
    rw [← range1_concat n h1] at hlast
    rw [hlast, unit_ok]
    by_cases hok : (pySplit (send_command hub.t (dCmd rad_id n.toNat target))).headI = "OK"
    · simp [hok]
    · simp [hok]

/-- Witness for C1 at a concrete two-unit zone: the claim's hypotheses
hold for `okThenErrHub` (unit 1 answers `"OK"`, unit 2 `"ERR"`), where the
returned flag is false, and for `errThenOkHub` (the reverse), where it is
true. -/
theorem set_temperature_last_unit_only_witness :
    ((set_temperature okThenErrHub 7 21).1
        = (range1 2).map (fun i => dCmd 7 i 21) ∧
     ((set_temperature okThenErrHub 7 21).2 = .ok true ↔
       (pySplit (send_command okThenErrHub.t (dCmd 7 (2 : Int).toNat 21))).headI = "OK")) ∧
    (set_temperature okThenErrHub 7 21).2 = .ok false ∧
    (set_temperature errThenOkHub 7 21).2 = .ok true :=
  ⟨set_temperature_last_unit_only okThenErrHub 7 21 2 rfl (by decide), rfl, rfl⟩

/-- The field extraction the energy loop performs on unit `i`'s reply. -/
def unit_fields (t : Transport) (rad_id : Int) (i : Nat) : Except PyErr (ℚ × Int) := do
  let c1 ← pyGet (pySplit (send_command t (rudCmd rad_id i))) 1
  let n1 ← pyInt c1
  let c2 ← pyGet (pySplit (send_command t (rudCmd rad_id i))) 2
  let n2 ← pyInt c2
  pure ((n1 : ℚ) / 10000, n2)

/-- The energy loop sends one `?UD` read per unit index, accumulates the
per-unit contribution over exactly the units whose reply has status
`"OK"`, and ends with the flag of the last visited unit. -/
theorem get_energy_usage_loop_spec (t : Transport) (rad_id : Int) (m w : Nat → Int)
    (is : List Nat) (total : ℚ) (okay : Bool)
    (hfields : ∀ i ∈ is,
      (pySplit (send_command t (rudCmd rad_id i))).headI = "OK" →
      unit_fields t rad_id i = .ok ((m i : ℚ) / 10000, w i)) :
    get_energy_usage_loop t rad_id is total okay =
      (is.map (rudCmd rad_id),
       .ok (total + ((is.filter (fun i => unit_ok t (rudCmd rad_id i))).map
              (fun i => (w i : ℚ) * ((m i : ℚ) / 10000))).sum,
            (is.getLast?).elim okay (fun j => unit_ok t (rudCmd rad_id j)))) := by
  induction is generalizing total okay with
  | nil => simp [get_energy_usage_loop]
  | cons i rest ih =>
    have hrest : ∀ j ∈ rest,
        (pySplit (send_command t (rudCmd rad_id j))).headI = "OK" →
        unit_fields t rad_id j = .ok ((m j : ℚ) / 10000, w j) :=
      fun j hj => hfields j (List.mem_cons_of_mem i hj)
    by_cases hok : (pySplit (send_command t (rudCmd rad_id i))).headI = "OK"
    · have hval := hfields i (List.mem_cons_self i rest) hok
      rw [unit_fields] at hval
      have hu : unit_ok t (rudCmd rad_id i) = true := by simp [unit_ok, hok]
      have hfilt : (i :: rest).filter (fun j => unit_ok t (rudCmd rad_id j))
          = i :: rest.filter (fun j => unit_ok t (rudCmd rad_id j)) :=
        List.filter_cons_of_pos hu
      simp only [get_energy_usage_loop, if_pos hok, hval,
        List.map_cons, hfilt, List.sum_cons]
      rw [ih (total + (w i : ℚ) * ((m i : ℚ) / 10000)) true hrest]
      cases rest with
      | nil => simp [hu]
      | cons b bs =>
        simp only [List.getLast?_cons_cons]
        cases hgl : (b :: bs).getLast? with
        | none => simp at hgl
        | some x => simp [hgl, add_assoc]
    · have hu : unit_ok t (rudCmd rad_id i) = false := by simp [unit_ok, hok]
      have hfilt : (i :: rest).filter (fun j => unit_ok t (rudCmd rad_id j))
          = rest.filter (fun j => unit_ok t (rudCmd rad_id j)) :=
        List.filter_cons_of_neg (by simp [hu])
      simp only [get_energy_usage_loop, if_neg hok, List.map_cons, hfilt]
      rw [ih total false hrest]
      cases rest with
      | nil => simp [unit_ok, hok]
      | cons b bs =>
        simp only [List.getLast?_cons_cons]
        cases hgl : (b :: bs).getLast? with
        | none => simp at hgl
        | some x => simp [hgl]

/-- C2: for every zone with unit count `n ≥ 1` whose `"OK"` replies carry
parseable fields, `HeatappRadiator.get_energy_usage()` issues one `?UD`
read per unit `i = 1..n`; if the last unit's reply has status token
`"OK"` it returns the sum, over exactly those units that replied `"OK"`,
of `raw_reading * scaled_multiplier / 10000`; otherwise it returns
`None`. -/
theorem get_energy_usage_spec (hub : Hub) (rad_id n : Int) (m w : Nat → Int)
    (hcount : radCount hub rad_id = .ok n) (h1 : 1 ≤ n)
    (hfields : ∀ i ∈ range1 n,
      (pySplit (send_command hub.t (rudCmd rad_id i))).headI = "OK" →
      unit_fields hub.t rad_id i = .ok ((m i : ℚ) / 10000, w i)) :
    (get_energy_usage hub rad_id).1 = (range1 n).map (rudCmd rad_id) ∧
    (get_energy_usage hub rad_id).2 =
      .ok (if (pySplit (send_command hub.t (rudCmd rad_id n.toNat))).headI = "OK"
        then some ((((range1 n).filter (fun i => unit_ok hub.t (rudCmd rad_id i))).map
            (fun i => (w i : ℚ) * ((m i : ℚ) / 10000))).sum)
        else none) := by
  have hloop := get_energy_usage_loop_spec hub.t rad_id m w (range1 n) 0 false hfields
  have hgl : (range1 n).getLast? = some n.toNat := by
    rw [range1_concat n h1]
    exact List.getLast?_concat _
  constructor
  · simp only [get_energy_usage, hcount, hloop]
  · simp only [get_energy_usage, hcount, hloop, hgl, Option.elim, zero_add]
    by_cases hok : (pySplit (send_command hub.t (rudCmd rad_id n.toNat))).headI = "OK"
    · simp [unit_ok, hok]
    · simp [unit_ok, hok]

/-- Witness for C2 at a concrete two-unit zone whose `?UD` replies are
`"OK,5000,100"` and `"OK,5000,200"`: the returned total is
`0.5 * 100 + 0.5 * 200 = 150`. -/
theorem get_energy_usage_spec_witness :
    (get_energy_usage energyHub 7).1 = (range1 2).map (rudCmd 7) ∧
    (get_energy_usage energyHub 7).2 = .ok (some 150) := by
  have h := get_energy_usage_spec energyHub 7 2 (fun _ => 5000)
    (fun i => if i = 1 then 100 else 200) rfl (by decide)
    (by
      intro i hi hok
      cases hi with
      | head => rfl
      | tail b h2 =>
        cases h2 with
        | head => rfl
        | tail c h3 => cases h3)
  refine ⟨h.1, ?_⟩
  have hval : (get_energy_usage energyHub 7).2
      = .ok (some ((0 : ℚ) + ((100 : Int) : ℚ) * (((5000 : Int) : ℚ) / 10000)
          + ((200 : Int) : ℚ) * (((5000 : Int) : ℚ) / 10000))) := rfl
  rw [hval]
  norm_num

/-- A hub that finished construction got its two topology sequences from
the two topology queries. -/
theorem hubInit_ok_topology (t : Transport) (hub : Hub) (h : hubInit t = .ok hub) :
    get_radiator_ids t = .ok hub.radiator_ids ∧
    get_radiators_per_zone t = .ok hub.radiators_per_zone := by
  cases hfw : get_fw t with
  | error e => simp [hubInit, hfw, error_bind] at h
  | ok fw =>
    cases fw with
    | none => simp [hubInit, hfw, ok_bind] at h
    | some trip =>
      obtain ⟨f, di, iu⟩ := trip
      cases hids : get_radiator_ids t with
      | error e => simp [hubInit, hfw, ok_bind, hids, error_bind] at h
      | ok ids =>
        cases hper : get_radiators_per_zone t with
        | error e => simp [hubInit, hfw, ok_bind, hids, hper, error_bind] at h
        | ok per =>
          simp only [hubInit, hfw, ok_bind, hids, hper] at h
          cases h
          exact ⟨rfl, rfl⟩

/-- C3 counterexample: with an `OPF/` handshake that succeeds, an `OPS2/`
reply carrying two radiator ids and an `OPS3/` query that times out, Hub
construction succeeds with `len(radiator_ids) = 2` but
`len(radiators_per_zone) = 0`, so the claimed invariant fails. -/
theorem hub_topology_mismatch_cex :
    (hubInit mismatchT).toOption.map
      (fun hub => (hub.radiator_ids.length, hub.radiators_per_zone.length))
        = some (2, 0) ∧
    (hubInit mismatchT).toOption.map
      (fun hub => decide (hub.radiator_ids.length = hub.radiators_per_zone.length))
        = some false :=
  ⟨rfl, rfl⟩

/-- C3 amended: after Hub construction,
`len(radiator_ids) == len(radiators_per_zone)` holds when the `OPS2/` and
`OPS3/` replies either both fail the status check (both sequences empty)
or both succeed carrying equally many fields; when one succeeds and the
other fails, or the two successful replies carry different numbers of
fields, the two lengths can differ (the code parses the two replies
independently and enforces no invariant between them). -/
theorem hub_topology_len_eq (t : Transport) (hub : Hub)
    (hok : hubInit t = .ok hub)
    (hcond :
      ((pySplit (send_command t "OPS2/")).headI ≠ "OPOK" ∧
       (pySplit (send_command t "OPS3/")).headI ≠ "OPOK") ∨
      ((pySplit (send_command t "OPS2/")).headI = "OPOK" ∧
       (pySplit (send_command t "OPS3/")).headI = "OPOK" ∧
       (pySplit (send_command t "OPS2/")).length
         = (pySplit (send_command t "OPS3/")).length)) :
    hub.radiator_ids.length = hub.radiators_per_zone.length := by
  obtain ⟨hids, hper⟩ := hubInit_ok_topology t hub hok
  rcases hcond with ⟨h2, h3⟩ | ⟨h2, h3, hlen⟩
  · have e2 : get_radiator_ids t = .ok [] := by simp [get_radiator_ids, h2]
    have e3 : get_radiators_per_zone t = .ok [] := by simp [get_radiators_per_zone, h3]
    rw [Except.ok.inj (hids.symm.trans e2), Except.ok.inj (hper.symm.trans e3)]
  · have e2 : get_radiator_ids t
        = mapPyInt ((pySplit (send_command t "OPS2/")).drop 2) := by
      simp [get_radiator_ids, h2]
    have e3 : get_radiators_per_zone t
        = mapPyInt ((pySplit (send_command t "OPS3/")).drop 2) := by
      simp [get_radiators_per_zone, h3]
    rw [hids] at e2
    rw [hper] at e3
    have l2 := mapPyInt_length _ _ e2.symm
    have l3 := mapPyInt_length _ _ e3.symm
    rw [l2, l3, List.length_drop, List.length_drop, hlen]

/-- Witness for C3's amended statement at a transport whose two topology
replies both succeed with two fields each. -/
theorem hub_topology_len_eq_witness :
    (⟨twoZoneT, "fw", "site/idu", "idu", [5, 6], [1, 2]⟩ : Hub).radiator_ids.length
      = (⟨twoZoneT, "fw", "site/idu", "idu", [5, 6], [1, 2]⟩ : Hub).radiators_per_zone.length :=
  hub_topology_len_eq twoZoneT ⟨twoZoneT, "fw", "site/idu", "idu", [5, 6], [1, 2]⟩
    rfl (Or.inr (by decide))

/-- C4 counterexample: constructing a Radiator for `rad_id = 9` against a
hub whose `radiator_ids` is empty fails (the lookup raises `ValueError`),
but the `?F` firmware read has already been sent by then: the command
trace of the failed construction is exactly `[R#9#1#0#0*?F/]`, refuting
the claim that the `?F` read is issued only after the `unit_count` lookup
has succeeded. -/
theorem radiator_init_order_cex :
    pyIndex noZoneHub.radiator_ids 9 = .error .valueError ∧
    radiatorInit noZoneHub 9 = ([rfCmd 9], .error .valueError) ∧
    rfCmd 9 = "R#9#1#0#0*?F/" :=
  ⟨rfl, rfl, rfl⟩

/-- C4 amended: Radiator construction first issues the `?F` read against
unit 1 for firmware/serial, and only then resolves `unit_count` by
position lookup of `rad_id` in the Hub's `radiator_ids` (as the first
step of the power aggregation); when `rad_id` is absent the construction
fails by propagating the lookup's `ValueError` — never yielding a
Radiator — after having sent exactly the one `?F` command and no `?UD`
read. -/
theorem radiator_init_absent (hub : Hub) (rad_id : Int)
    (p : Option String × Option String)
    (hfw : get_rad_fw hub.t rad_id = .ok p)
    (habs : pyIndex hub.radiator_ids rad_id = .error .valueError) :
    radiatorInit hub rad_id = ([rfCmd rad_id], .error .valueError) := by
  have hpow : get_power hub rad_id = ([], .error .valueError) := by
    have hrc : radCount hub rad_id = .error .valueError := by
      rw [radCount, habs, error_bind]
    rw [get_power, hrc]
  obtain ⟨fw, sn⟩ := p
  rw [radiatorInit, hfw, hpow]

/-- Witness for C4's amended statement: the hypotheses hold for
`noZoneHub` and `rad_id = 9`. -/
theorem radiator_init_absent_witness :
    radiatorInit noZoneHub 9 = ([rfCmd 9], .error .valueError) :=
  radiator_init_absent noZoneHub 9 (none, none) rfl rfl

/-- C5 counterexample: for the successful `OPH/` reply
`"OPOK,1,2,3,4,5,6,7"` — under the claim's field order hour `1`,
minute `2`, second `3`, day `4`, month `5`, year-offset `6`, weekday `7` —
`get_time` returns the timestamp `(2007, 6, 5, 1, 2, 3)`, not the claimed
`(2000 + 6, 5, 4, 1, 2, 3)`: the code reads the year offset from the 7th
field, the month from the 6th and the day from the 5th. -/
theorem get_time_field_order_cex :
    get_time timeT = .ok (some ⟨2007, 6, 5, 1, 2, 3⟩) ∧
    (⟨2007, 6, 5, 1, 2, 3⟩ : PyDatetime) ≠ ⟨2006, 5, 4, 1, 2, 3⟩ :=
  ⟨rfl, by decide⟩

/-- C5 amended: for every successful `OPH/` response with at least 7
integer fields after the status token, `get_time` builds the timestamp
from the 1st, 2nd and 3rd fields as hour, minute and second and from the
5th, 6th and 7th fields as day, month and year-offset (the 4th field is
ignored): it returns
`datetime(2000 + d[6], d[5], d[4], d[0], d[1], d[2])`. -/
theorem get_time_fields (t : Transport) (d : List Int)
    (hst : (pySplit (send_command t "OPH/")).headI = "OPOK")
    (hparse : mapPyInt ((pySplit (send_command t "OPH/")).drop 1) = .ok d)
    (h7 : 7 ≤ d.length) :
    get_time t = (mkDatetime (2000 + d.getD 6 0) (d.getD 5 0) (d.getD 4 0)
      (d.getD 0 0) (d.getD 1 0) (d.getD 2 0)).map some := by
  have hget : ∀ k, k < d.length → pyGet d k = .ok (d.getD k 0) := by
    intro k hk
    simp [pyGet, List.get?_eq_get hk, List.getD_eq_getElem?_getD,
      List.getElem?_eq_getElem hk, List.get_eq_getElem]
  simp only [get_time, hst, if_pos, hparse, ok_bind,
    hget 6 (by omega), hget 5 (by omega), hget 4 (by omega),
    hget 0 (by omega), hget 1 (by omega), hget 2 (by omega)]
  cases hdt : mkDatetime (2000 + d.getD 6 0) (d.getD 5 0) (d.getD 4 0)
      (d.getD 0 0) (d.getD 1 0) (d.getD 2 0) with
  | error e => simp [hdt, Except.map, error_bind]
  | ok v => simp [hdt, Except.map, ok_bind]

/-- Witness for C5's amended statement at the reply
`"OPOK,1,2,3,4,5,6,7"`. -/
theorem get_time_fields_witness :
    get_time timeT = (mkDatetime (2000 + [1, 2, 3, 4, 5, 6, 7].getD 6 0)
      ([1, 2, 3, 4, 5, 6, 7].getD 5 0) ([1, 2, 3, 4, 5, 6, 7].getD 4 0)
      ([1, 2, 3, 4, 5, 6, 7].getD 0 0) ([1, 2, 3, 4, 5, 6, 7].getD 1 0)
      ([(1 : Int), 2, 3, 4, 5, 6, 7].getD 2 0)).map some :=
  get_time_fields timeT [1, 2, 3, 4, 5, 6, 7] rfl rfl (by decide)

/-- Dropping leading copies of `c` consumes a leading replicate block. -/
theorem dropWhile_replicate_append (c : Char) (m : Nat) (l : List Char) :
    (List.replicate m c ++ l).dropWhile (fun x => x == c)
      = l.dropWhile (fun x => x == c) := by
  induction m with
  | zero => rfl
  | succ j ih => simp [List.replicate_succ, List.dropWhile_cons, ih]

/-- Dropping leading copies of `c` is the identity when the head is not
`c`. -/
theorem dropWhile_of_head_ne (c : Char) (l : List Char)
    (h : l.head? ≠ some c) : l.dropWhile (fun x => x == c) = l := by
  cases l with
  | nil => rfl
  | cons x xs =>
    have hx : ¬x = c := by simpa using h
    simp [List.dropWhile_cons, hx]

/-- `rstrip` removes a trailing replicate block of its character. -/
theorem rstrip_append_replicate (a : List Char) (m : Nat) (c : Char) :
    rstrip ⟨a ++ List.replicate m c⟩ c = rstrip ⟨a⟩ c := by
  simp only [rstrip, List.reverse_append, List.reverse_replicate,
    dropWhile_replicate_append]

/-- `rstrip` is the identity when the string does not end in its
character. -/
theorem rstrip_of_getLast_ne (s : String) (c : Char)
    (h : s.data.getLast? ≠ some c) : rstrip s c = s := by
  rw [← List.head?_reverse] at h
  rw [rstrip, dropWhile_of_head_ne c s.data.reverse h, List.reverse_reverse]

/-- C6 counterexample: a reply datagram whose trailing padding run
interleaves the two padding bytes — `"OPOK"` followed by `0x00` then
`0x19` — is not fully stripped: `send_command` returns `"OPOK\x00"`,
which still ends in a padding byte, not `"OPOK"`. -/
theorem send_command_interleaved_cex :
    interleavedPadT "OPS1/" = some ⟨"OPOK".data ++ ['\x00', '\x19']⟩ ∧
    send_command interleavedPadT "OPS1/" = "OPOK\x00" ∧
    "OPOK\x00" ≠ "OPOK" :=
  ⟨rfl, rfl, by decide⟩

/-- C6 amended: `send_command` removes trailing `0x00` bytes first and
trailing `0x19` bytes second, so a trailing padding run of the form
(`0x19` bytes followed by `0x00` bytes) is removed in full, leaving the
interior untouched; an interleaved trailing run (a `0x00` before a
trailing `0x19`) is not fully removed. -/
theorem send_command_strip_order (t : Transport) (cmd : String) (a : List Char)
    (k m : Nat)
    (ht : t cmd = some ⟨a ++ List.replicate k '\x19' ++ List.replicate m '\x00'⟩)
    (h0 : a.getLast? ≠ some '\x00')
    (h19 : a.getLast? ≠ some '\x19') :
    send_command t cmd = ⟨a⟩ := by
  rw [send_command, ht]
  show rstrip (rstrip ⟨a ++ List.replicate k '\x19' ++ List.replicate m '\x00'⟩ '\x00')
      '\x19' = ⟨a⟩
  have h1 : rstrip ⟨(a ++ List.replicate k '\x19') ++ List.replicate m '\x00'⟩ '\x00'
      = ⟨a ++ List.replicate k '\x19'⟩ := by
    rw [rstrip_append_replicate (a ++ List.replicate k '\x19') m '\x00']
    apply rstrip_of_getLast_ne
    cases k with
    | zero => simpa using h0
    | succ j =>
      have : a ++ List.replicate (j + 1) '\x19'
          = (a ++ List.replicate j '\x19') ++ ['\x19'] := by
        rw [List.replicate_succ', ← List.append_assoc]
      rw [this]
      rw [show ((a ++ List.replicate j '\x19') ++ ['\x19'] : List Char).getLast?
          = some '\x19' from List.getLast?_concat _]
      decide
  rw [h1, rstrip_append_replicate a k '\x19']
  exact rstrip_of_getLast_ne ⟨a⟩ '\x19' h19

/-- Witness for C6's amended statement: the reply
`"OPOK" ++ 0x19 0x19 0x00 0x00` is stripped back to `"OPOK"`. -/
theorem send_command_strip_order_witness :
    send_command orderedPadT "OPS1/" = ⟨"OPOK".data⟩ :=
  send_command_strip_order orderedPadT "OPS1/" "OPOK".data 2 2 rfl
    (by decide) (by decide)

/-- Under a transport that never replies, the write loop's flag ends
false. -/
theorem set_temperature_loop_timeout (t : Transport) (rad_id target : Int)
    (ht : ∀ c, t c = none) (is : List Nat) :
    (set_temperature_loop t rad_id target is false).2 = false := by
  induction is with
  | nil => rfl
  | cons i rest ih =>
    have hsc : send_command t (dCmd rad_id i target) = "TIMEOUT" := by
      rw [send_command, ht]
    simp only [set_temperature_loop, hsc]
    rw [if_neg (by decide)]
    exact ih

/-- Under a transport that never replies, the energy loop accumulates
nothing and its flag ends false. -/
theorem get_energy_usage_loop_timeout (t : Transport) (rad_id : Int)
    (ht : ∀ c, t c = none) (is : List Nat) (total : ℚ) :
    get_energy_usage_loop t rad_id is total false
      = (is.map (rudCmd rad_id), .ok (total, false)) := by
  induction is with
  | nil => rfl
  | cons i rest ih =>
    have hsc : send_command t (rudCmd rad_id i) = "TIMEOUT" := by
      rw [send_command, ht]
    simp only [get_energy_usage_loop, hsc, List.map_cons]
    rw [if_neg (by decide)]
    rw [ih]

/-- Under a transport that never replies, the power loop accumulates
nothing. -/
theorem get_power_loop_timeout (t : Transport) (rad_id : Int)
    (ht : ∀ c, t c = none) (is : List Nat) (total : Int) :
    get_power_loop t rad_id is total = (is.map (rudCmd rad_id), .ok total) := by
  induction is with
  | nil => rfl
  | cons i rest ih =>
    have hsc : send_command t (rudCmd rad_id i) = "TIMEOUT" := by
      rw [send_command, ht]
    simp only [get_power_loop, hsc, List.map_cons]
    rw [if_neg (by decide)]
    rw [ih]

/-- C7: whenever the transport times out, `send_command` returns the
literal sentinel `"TIMEOUT"` instead of raising, and every caller —
`ready`, `get_fw`, `get_nw`, `get_time`, the two topology queries, and
all Radiator reads and writes — treats the sentinel as a failure,
yielding false, `None`, or an empty sequence, never a raised
exception. -/
theorem timeout_sentinel_no_raise (hub : Hub) (rad_id target n : Int)
    (ht : ∀ c, hub.t c = none)
    (hcount : radCount hub rad_id = .ok n) :
    (∀ cmd, send_command hub.t cmd = "TIMEOUT") ∧
    ready hub.t = false ∧
    get_fw hub.t = .ok none ∧
    get_nw hub.t = .ok none ∧
    get_time hub.t = .ok none ∧
    get_radiator_ids hub.t = .ok [] ∧
    get_radiators_per_zone hub.t = .ok [] ∧
    get_temperature hub rad_id = .ok none ∧
    (set_temperature hub rad_id target).2 = .ok false ∧
    (get_energy_usage hub rad_id).2 = .ok none ∧
    (get_power hub rad_id).2 = .ok 0 ∧
    get_rad_fw hub.t rad_id = .ok (none, none) ∧
    (radiatorInit hub rad_id).2 = .ok ⟨rad_id, none, none, 0⟩ := by
  have hsc : ∀ cmd, send_command hub.t cmd = "TIMEOUT" := by
    intro cmd
    rw [send_command, ht]
  have hfw : get_rad_fw hub.t rad_id = .ok (none, none) := by
    simp only [get_rad_fw, hsc]
    rw [if_neg (by decide)]
  have hpow : get_power hub rad_id = ((range1 n).map (rudCmd rad_id), .ok 0) := by
    simp only [get_power, hcount]
    rw [get_power_loop_timeout hub.t rad_id ht]
  refine ⟨hsc, ?_, ?_, ?_, ?_, ?_, ?_, ?_, ?_, ?_, ?_, hfw, ?_⟩
  · simp only [ready, hsc]
    rw [if_neg (by decide)]
  · simp only [get_fw, hsc]
    rw [if_neg (by decide)]
  · simp only [get_nw, hsc]
    rw [if_neg (by decide)]
  · simp only [get_time, hsc]
    rw [if_neg (by decide)]
  · simp only [get_radiator_ids, hsc]
    rw [if_neg (by decide)]
  · simp only [get_radiators_per_zone, hsc]
    rw [if_neg (by decide)]
  · simp only [get_temperature, hsc]
    rw [if_neg (by decide)]
  · have hs : set_temperature hub rad_id target
        = ((set_temperature_loop hub.t rad_id target (range1 n) false).1,
           .ok (set_temperature_loop hub.t rad_id target (range1 n) false).2) := by
      rw [set_temperature, hcount]
    rw [hs, set_temperature_loop_timeout hub.t rad_id target ht (range1 n)]
  · simp only [get_energy_usage, hcount,
      get_energy_usage_loop_timeout hub.t rad_id ht (range1 n) 0]
    rfl
  · rw [hpow]
  · rw [radiatorInit, hfw, hpow]

/-- Witness for C7 at a hub whose transport never replies and whose one
zone has two units. -/
theorem timeout_sentinel_no_raise_witness :
    (∀ cmd, send_command silentHub.t cmd = "TIMEOUT") ∧
    ready silentHub.t = false ∧
    get_fw silentHub.t = .ok none ∧
    get_nw silentHub.t = .ok none ∧
    get_time silentHub.t = .ok none ∧
    get_radiator_ids silentHub.t = .ok [] ∧
    get_radiators_per_zone silentHub.t = .ok [] ∧
    get_temperature silentHub 7 = .ok none ∧
    (set_temperature silentHub 7 21).2 = .ok false ∧
    (get_energy_usage silentHub 7).2 = .ok none ∧
    (get_power silentHub 7).2 = .ok 0 ∧
    get_rad_fw silentHub.t 7 = .ok (none, none) ∧
    (radiatorInit silentHub 7).2 = .ok ⟨7, none, none, 0⟩ :=
  timeout_sentinel_no_raise silentHub 7 21 2 (fun _ => rfl) rfl

/-- `get_fw` can only raise `IndexError` (from subscripting a too-short
successful reply). -/
theorem get_fw_error (t : Transport) (e : PyErr) (h : get_fw t = .error e) :
    e = .indexError := by
  simp only [get_fw] at h
  split at h
  · cases h1 : pyGet (pySplit (send_command t "OPF/")) 1 with
    | error e1 =>
      rw [h1, error_bind] at h
      cases h
      exact pyGet_error _ _ _ h1
    | ok v1 =>
      rw [h1, ok_bind] at h
      cases h2 : pyGet (pySplit (send_command t "OPF/")) 2 with
      | error e2 =>
        rw [h2, error_bind] at h
        cases h
        exact pyGet_error _ _ _ h2
      | ok v2 =>
        rw [h2, ok_bind] at h
        cases h3 : pyGet (pySplit (send_command t "OPF/")) 3 with
        | error e3 =>
          rw [h3, error_bind] at h
          cases h
          exact pyGet_error _ _ _ h3
        | ok v3 => rw [h3, ok_bind] at h; cases h
  · cases h

/-- `__get_radiator_ids` can only raise `ValueError` (from `int(...)`). -/
theorem get_radiator_ids_error (t : Transport) (e : PyErr)
    (h : get_radiator_ids t = .error e) : e = .valueError := by
  simp only [get_radiator_ids] at h
  split at h
  · exact mapPyInt_error _ _ h
  · cases h

/-- `__get_radiators_per_zone` can only raise `ValueError`. -/
theorem get_radiators_per_zone_error (t : Transport) (e : PyErr)
    (h : get_radiators_per_zone t = .error e) : e = .valueError := by
  simp only [get_radiators_per_zone] at h
  split at h
  · exact mapPyInt_error _ _ h
  · cases h

/-- C8: Hub construction raises `ConnectionError` if and only if the
`OPF/` firmware handshake fails (timeout or status token other than
`"OPOK"`); failures of the subsequent `OPS2/` and `OPS3/` topology
queries never fail construction and instead leave the corresponding
sequence empty. -/
theorem hub_connection_error_policy (t : Transport) :
    (hubInit t = .error .connectionError ↔
      (pySplit (send_command t "OPF/")).headI ≠ "OPOK") ∧
    (∀ f1 f2 f3 : String,
      pyGet (pySplit (send_command t "OPF/")) 1 = .ok f1 →
      pyGet (pySplit (send_command t "OPF/")) 2 = .ok f2 →
      pyGet (pySplit (send_command t "OPF/")) 3 = .ok f3 →
      (pySplit (send_command t "OPF/")).headI = "OPOK" →
      (pySplit (send_command t "OPS2/")).headI ≠ "OPOK" →
      (pySplit (send_command t "OPS3/")).headI ≠ "OPOK" →
      hubInit t = .ok ⟨t, f1, f2 ++ "/" ++ f3, f3, [], []⟩) := by
  constructor
  · constructor
    · intro h
      by_cases hok : (pySplit (send_command t "OPF/")).headI = "OPOK"
      · exfalso
        cases hfw : get_fw t with
        | error e =>
          rw [hubInit, hfw, error_bind] at h
          cases h
          cases get_fw_error t _ hfw
        | ok fw =>
          cases fw with
          | none =>
            simp only [get_fw, if_pos hok] at hfw
            cases h1 : pyGet (pySplit (send_command t "OPF/")) 1 with
            | error e1 => rw [h1, error_bind] at hfw; cases hfw
            | ok v1 =>
              rw [h1, ok_bind] at hfw
              cases h2 : pyGet (pySplit (send_command t "OPF/")) 2 with
              | error e2 => rw [h2, error_bind] at hfw; cases hfw
              | ok v2 =>
                rw [h2, ok_bind] at hfw
                cases h3 : pyGet (pySplit (send_command t "OPF/")) 3 with
                | error e3 => rw [h3, error_bind] at hfw; cases hfw
                | ok v3 => rw [h3, ok_bind] at hfw; cases hfw
          | some trip =>
            obtain ⟨f, di, iu⟩ := trip
            cases hids : get_radiator_ids t with
            | error e =>
              simp only [hubInit, hfw, ok_bind, hids, error_bind] at h
              cases h
              cases get_radiator_ids_error t _ hids
            | ok ids =>
              cases hper : get_radiators_per_zone t with
              | error e =>
                simp only [hubInit, hfw, ok_bind, hids, hper, error_bind] at h
                cases h
                cases get_radiators_per_zone_error t _ hper
              | ok per =>
                simp only [hubInit, hfw, ok_bind, hids, hper] at h
                cases h
      · exact hok
    · intro hne
      have hfw : get_fw t = .ok none := by
        simp only [get_fw, if_neg hne]
      rw [hubInit, hfw, ok_bind]
  · intro f1 f2 f3 h1 h2 h3 hok hs2 hs3
    have hfw : get_fw t = .ok (some (f1, f2 ++ "/" ++ f3, f3)) := by
      simp only [get_fw, if_pos hok, h1, ok_bind, h2, h3]
    have hids : get_radiator_ids t = .ok [] := by
      simp only [get_radiator_ids, if_neg hs2]
    have hper : get_radiators_per_zone t = .ok [] := by
      simp only [get_radiators_per_zone, if_neg hs3]
    simp only [hubInit, hfw, ok_bind, hids, hper]

/-- Witness for C8: a hub whose `OPF/` handshake succeeds but whose
topology queries time out constructs successfully with empty topology,
and the `ConnectionError` criterion is exercised at a transport that
never replies. -/
theorem hub_connection_error_policy_witness :
    hubInit opfOnlyT = .ok ⟨opfOnlyT, "fw", "site/idu", "idu", [], []⟩ ∧
    (hubInit silentT = .error .connectionError ↔
      (pySplit (send_command silentT "OPF/")).headI ≠ "OPOK") :=
  ⟨(hub_connection_error_policy opfOnlyT).2 "fw" "site" "idu" rfl rfl rfl rfl
      (by decide) (by decide),
   (hub_connection_error_policy silentT).1⟩

/-- C10: a response whose status token is the success token but whose
remaining fields are missing or not parseable as integers makes the
decoding operation raise (`IndexError` from subscripting, `ValueError`
from `int(...)`) instead of returning `None`/`[]`: `OPF/` answered by
`"OPOK"` alone raises `IndexError` in `get_fw`, and `OPS2/` answered by
`"OPOK,0,abc"` raises `ValueError` in `__get_radiator_ids`, while the
same `get_fw` against a reply whose status token is not the success token
collapses to `None` without raising. -/
theorem malformed_success_raises :
    get_fw bareOpokT = .error .indexError ∧
    get_radiator_ids badFieldT = .error .valueError ∧
    get_fw badFieldT = .ok none :=
  ⟨rfl, rfl, rfl⟩

end Heatapp
